import Mathlib

/-!
Verification of the dilon-claude-tools MCP server against its specification.

The development shallowly embeds the server's JavaScript source:

* `src/utils.js` — path resolution (`resolvePath`, Node `path.resolve`
  POSIX semantics), command-string assembly (`executePowerShell`,
  `executePython`) and the uniform response envelopes
  (`createSuccessResponse`, `createErrorResponse`);
* `src/config.js` — `loadConfig` field validation and `validateToolPaths`;
* `src/tools/dilon-compiler.js`, `src/tools/plantuml.js`,
  `src/tools/generate-stub.js` — the three operation handlers;
* `server.js` — the `CallToolRequestSchema` dispatcher.

Filesystem reads (`existsSync`, `readFileSync`) and external process
execution are modelled by explicit environment records; each handler
returns, besides its response envelope, the trace of side effects
(process spawns, file writes) it performed, so that claims such as
"spawns no external process" are statements about the trace.
POSIX path-separator semantics are used throughout.
-/

/-! ## Character-list string primitives

Executable replacements for the JavaScript string operations the source
uses (`String.prototype.includes`, `replace` with the concrete regexes
appearing in the source, `substring`).  They operate on `String.data`
so that every definition is structurally recursive and kernel-reducible.
-/

/-- Drop the literal `pat` from the front of `cs`; `none` if `cs` does not
start with `pat`. -/
def dropLit : List Char → List Char → Option (List Char)
  | [], cs => some cs
  | _ :: _, [] => none
  | p :: ps, c :: cs => if c = p then dropLit ps cs else none

/-- Tail-recursive scan for the first occurrence of the literal `pat`,
accumulating the text before the match in reverse. -/
def splitFirstAux (pat : List Char) : List Char → List Char → Option (List Char × List Char)
  | beforeRev, cs =>
    match dropLit pat cs with
    | some rest => some (beforeRev.reverse, rest)
    | none =>
      match cs with
      | [] => none
      | c :: cs => splitFirstAux pat (c :: beforeRev) cs

/-- Split `cs` around the first occurrence of the literal `pat`:
returns `(before, after)` with `cs = before ++ pat ++ after`. -/
def splitFirst (pat cs : List Char) : Option (List Char × List Char) :=
  splitFirstAux pat [] cs

/-- Character-list equality as a short-circuit Boolean fold (reduces
with bounded stack even on long strings). -/
def eqChars : List Char → List Char → Bool
  | [], [] => true
  | a :: as, b :: bs => a == b && eqChars as bs
  | _, _ => false

/-- String equality through `eqChars`. -/
def strEqB (s t : String) : Bool :=
  eqChars s.data t.data

/-- JavaScript `s.includes(pat)`. -/
def strIncludes (s pat : String) : Bool :=
  (splitFirst pat.data s.data).isSome

/-- JavaScript `s.substring(0, n)` (character-based). -/
def strTake (s : String) (n : Nat) : String :=
  String.mk (s.data.take n)

/-- `psCommand.replace(/"/g, '\\"')` from `executePowerShell`. -/
def escQuotes (s : String) : String :=
  String.mk (s.data.foldr (fun c acc => if c = '"' then '\\' :: '"' :: acc else c :: acc) [])

/-! ## POSIX path model (Node `path` module)

`resolvePath` in `src/utils.js` is
`isAbsolute(p) ? resolve(p) : resolve(base, p)`.  Node's
`path.posix.resolve` accumulates its arguments right to left, skipping
empty strings and stopping at the first absolute one, prefixes the
working directory when none is absolute, and normalizes the result
(collapsing `//`, `.` and `..`).
-/

/-- Node `path.posix.isAbsolute`: the first character is `/`. -/
def isAbsolute (p : String) : Bool :=
  match p.data with
  | c :: _ => c = '/'
  | [] => false

/-- Split a path into its `/`-separated raw tokens (empties included). -/
def splitSlashAux : List Char → List Char → List String
  | acc, [] => [String.mk acc.reverse]
  | acc, c :: cs =>
    if c = '/' then String.mk acc.reverse :: splitSlashAux [] cs
    else splitSlashAux (c :: acc) cs

/-- The nonempty `/`-separated segments of a path string. -/
def segments (p : String) : List String :=
  (splitSlashAux [] p.data).filter (fun s => s ≠ "")

/-- Normalization of an absolute path's segment list: `.` is dropped,
`..` pops the previous segment (or is dropped at the root). -/
def normAbsSegs (segs : List String) : List String :=
  segs.foldl (fun st s => if s = "." then st else if s = ".." then st.dropLast else st ++ [s]) []

/-- Node normalization of an absolute path. -/
def normAbsPath (p : String) : String :=
  "/" ++ String.intercalate "/" (normAbsSegs (segments p))

/-- One step of Node `path.posix.resolve`'s right-to-left accumulation:
skip once an absolute part was found, skip empty parts, otherwise
prepend `part ++ "/"`. -/
def pathStep (acc : String × Bool) (part : String) : String × Bool :=
  if acc.2 then acc
  else if part = "" then acc
  else (part ++ "/" ++ acc.1, isAbsolute part)

/-- Node `path.posix.resolve cwd parts` (correct whenever `cwd` or one of
the parts is absolute, which is how the server uses it: `process.cwd()`
is always absolute). -/
def nodeResolve (cwd : String) (parts : List String) : String :=
  let r := parts.reverse.foldl pathStep ("", false)
  let r := if r.2 then r else pathStep r cwd
  normAbsPath r.1

/-- `resolvePath` from `src/utils.js`: absolute paths are normalized as
is, relative ones are resolved against `basePath` (the source's default
`basePath` is `process.cwd()`, passed here as `cwd`). -/
def resolvePath (cwd : String) (filePath : String) (basePath : String) : String :=
  if isAbsolute filePath then nodeResolve cwd [filePath]
  else nodeResolve cwd [basePath, filePath]

/-- Node `path.parse(p).base`: the part after the final slash. -/
def baseNameChars (cs : List Char) : List Char :=
  cs.foldl (fun acc c => if c = '/' then [] else acc ++ [c]) []

/-- Node `path.parse(p).dir`. -/
def dirName (p : String) : String :=
  let r := p.data.reverse
  let rest := r.dropWhile (fun c => c ≠ '/')
  match rest with
  | [] => ""
  | _ :: [] => "/"
  | _ :: t => String.mk t.reverse

/-- Node `path.parse(p).ext`: from the final dot of the base name,
empty when the only dot leads the base name. -/
def extName (p : String) : String :=
  let base := baseNameChars p.data
  let r := base.reverse
  let revTail := r.takeWhile (fun c => c ≠ '.')
  let rest := r.dropWhile (fun c => c ≠ '.')
  match rest with
  | [] => ""
  | _ :: [] => ""
  | _ :: _ => String.mk ('.' :: revTail.reverse)

/-- Node `path.parse(p).name`: the base name without its extension. -/
def stemName (p : String) : String :=
  let base := baseNameChars p.data
  String.mk (base.take (base.length - (extName p).data.length))

/-- Node `path.format {dir, name, ext}` as called by the handlers
(`root` unset): `dir + "/" + name + ext`, or `name + ext` for an empty
`dir`. -/
def formatPath (dir name ext : String) : String :=
  if dir = "" then name ++ ext else dir ++ "/" ++ name ++ ext

/-- ASCII lower-casing, modelling `String.prototype.toLowerCase` on the
ASCII extensions and format selectors the handlers feed it. -/
def asciiLowerChar (c : Char) : Char :=
  if 'A' ≤ c ∧ c ≤ 'Z' then Char.ofNat (c.toNat + 32) else c

/-- ASCII `toLowerCase`. -/
def asciiLower (s : String) : String :=
  String.mk (s.data.map asciiLowerChar)

/-- ASCII upper-casing, modelling `String.prototype.toUpperCase` on the
format selectors. -/
def asciiUpperChar (c : Char) : Char :=
  if 'a' ≤ c ∧ c ≤ 'z' then Char.ofNat (c.toNat - 32) else c

/-- ASCII `toUpperCase`. -/
def asciiUpper (s : String) : String :=
  String.mk (s.data.map asciiUpperChar)

/-! ## Response envelopes and execution results -/

/-- One `{type, text}` block of an MCP response's `content` array. -/
structure ContentBlock where
  type : String
  text : String
deriving DecidableEq, Repr

/-- The second argument of `createSuccessResponse`, spread (`...data`)
into the envelope.  The source passes either nothing (the default `{}`)
or — in `generate-stub` — a plain string. -/
inductive SpreadArg where
  | emptyObj : SpreadArg
  | str (s : String) : SpreadArg
deriving DecidableEq, Repr

/-- JavaScript object spread applied to a `SpreadArg`: spreading a
string yields one index-keyed single-character property per character;
spreading `{}` yields nothing. -/
def spreadProps : SpreadArg → List (String × String)
  | .emptyObj => []
  | .str s => s.data.enum.map (fun p => (toString p.1, String.mk [p.2]))

/-- The uniform MCP response envelope: `content` blocks, the `isError`
flag, and any extra own-properties introduced by the `...data` spread in
`createSuccessResponse`. -/
structure McpResponse where
  content : List ContentBlock
  isError : Bool
  extraProps : List (String × String)
deriving DecidableEq, Repr

/-- `createSuccessResponse` from `src/utils.js`: a single text block
holding `message`, with `data` spread into the envelope. -/
def createSuccessResponse (message : String) (data : SpreadArg) : McpResponse :=
  { content := [{ type := "text", text := message }]
    isError := false
    extraProps := spreadProps data }

/-- `createErrorResponse` from `src/utils.js`. -/
def createErrorResponse (message : String) (details : String) : McpResponse :=
  { content := [{ type := "text"
                  text := if details = "" then message else message ++ "\n\nDetails:\n" ++ details }]
    isError := true
    extraProps := [] }

/-- The result shape produced by `executeCommand` in `src/utils.js`:
`error` is `none` exactly on the success path of the underlying `exec`. -/
structure ExecResult where
  success : Bool
  stdout : String
  stderr : String
  error : Option String
deriving DecidableEq, Repr

/-- String interpolation of a possibly-`null` value (`${result.error}`). -/
def showErr : Option String → String
  | none => "null"
  | some s => s

/-- `result.error && result.error.includes(pat)` from the PlantUML
handler's fallback test. -/
def errIncludes (e : Option String) (pat : String) : Bool :=
  match e with
  | none => false
  | some s => strIncludes s pat

/-- The full command line `executePowerShell` hands to `exec`. -/
def psWrap (psCommand : String) : String :=
  "powershell -Command \"" ++ escQuotes psCommand ++ "\""

/-- The full command line `executePython` hands to `exec`. -/
def pyCommand (pythonPath scriptPath : String) (args : List String) : String :=
  pythonPath ++ " \"" ++ scriptPath ++ "\" " ++
    String.intercalate " " (args.map (fun a => "\"" ++ a ++ "\""))

/-- A side effect a handler can perform: spawning an external process
with a full command line, or writing a file. -/
inductive Effect where
  | spawn (command : String) : Effect
  | fsWrite (path content : String) : Effect
deriving DecidableEq, Repr

/-- JavaScript truthiness applied to an optional string argument:
`undefined` and `""` are falsy, so `args.x || d` and `if (args.x)`
treat an empty string like an absent one. -/
def jsOr (v : Option String) (d : String) : String :=
  match v with
  | none => d
  | some s => if s = "" then d else s

/-- `if (args.x)`-style truthiness of an optional string argument. -/
def jsSome : Option String → Option String
  | none => none
  | some s => if s = "" then none else some s

/-! ## Configuration (`src/config.js`) -/

/-- A parsed configuration JSON object's three recognized fields, each
possibly absent. -/
structure ConfigJson where
  pythonPath : Option String
  plantUmlPath : Option String
  pandocPath : Option String
deriving DecidableEq, Repr

/-- Truthiness of `config[field]` for a string-or-absent field. -/
def fieldTruthy : Option String → Bool
  | none => false
  | some s => s ≠ ""

/-- Field lookup by name, for the `requiredFields.filter` loop. -/
def configField (c : ConfigJson) : String → Option String
  | "pythonPath" => c.pythonPath
  | "plantUmlPath" => c.plantUmlPath
  | "pandocPath" => c.pandocPath
  | _ => none

/-- `requiredFields.filter(field => !config[field])` from `loadConfig`. -/
def missingConfigFields (c : ConfigJson) : List String :=
  ["pythonPath", "plantUmlPath", "pandocPath"].filter
    (fun f => !(fieldTruthy (configField c f)))

/-- The required-field validation step of `loadConfig`, applied to a
parsed configuration object read from `configFile`.  The inner
`Missing required configuration fields` error is rethrown by the
surrounding `catch` wrapped in `Failed to load configuration from …`. -/
def loadConfigValidated (configFile : String) (c : ConfigJson) : Except String ConfigJson :=
  if missingConfigFields c ≠ [] then
    .error ("Failed to load configuration from " ++ configFile ++
      ": Missing required configuration fields: " ++
      String.intercalate ", " (missingConfigFields c))
  else
    .ok c

/-- The embedded-compiler paths returned by `getDilonCompilerPaths`,
parameterized by `PROJECT_ROOT`. -/
structure CompilerPaths where
  scriptPath : String
  signatureTemplate : String
  contentTemplate : String
  documentTemplate : String
  stylingGuide : String
deriving DecidableEq, Repr

/-- `getDilonCompilerPaths` from `src/config.js`. -/
def getDilonCompilerPaths (projectRoot : String) : CompilerPaths :=
  { scriptPath := projectRoot ++ "/tools/Dilon_Document_Compiler/generate_dilon_doc.py"
    signatureTemplate := projectRoot ++ "/tools/Dilon_Document_Compiler/TEMPLATE_Word_Signature.docx"
    contentTemplate := projectRoot ++ "/tools/Dilon_Document_Compiler/TEMPLATE_Word_Content.docx"
    documentTemplate := projectRoot ++ "/docs/TEMPLATE_Document.md"
    stylingGuide := projectRoot ++ "/docs/MARKDOWN_STYLING_GUIDE.md" }

/-- `getDocumentationPaths` from `src/config.js`. -/
def getDocumentationPaths (projectRoot : String) : String × String :=
  (projectRoot ++ "/docs/MARKDOWN_STYLING_GUIDE.md",
   projectRoot ++ "/docs/PlantUML_Style_Guide.md")

/-- `getPlantUMLStyleGuide` from `src/config.js`. -/
def getPlantUMLStyleGuide (projectRoot : String) : String :=
  projectRoot ++ "/docs/PlantUML_Style_Guide.md"

/-- The record `validateToolPaths` returns. -/
structure ValidationResult where
  valid : Bool
  errors : List String
  warnings : List String
deriving DecidableEq, Repr

/-- `validateToolPaths` from `src/config.js`, with `existsSync`
abstracted as `ex`.  The compiler script is the only check that clears
`valid` and pushes onto `errors`; the four embedded assets and the
configured PlantUML directory only push warnings. -/
def validateToolPaths (ex : String → Bool) (projectRoot : String) (plantUmlPath : String) :
    ValidationResult :=
  let cp := getDilonCompilerPaths projectRoot
  let dp := getDocumentationPaths projectRoot
  { valid := ex cp.scriptPath
    errors :=
      if ex cp.scriptPath then []
      else ["Dilon Compiler script not found at: " ++ cp.scriptPath]
    warnings :=
      (if ex cp.signatureTemplate then []
       else ["Signature template not found: " ++ cp.signatureTemplate]) ++
      (if ex cp.contentTemplate then []
       else ["Content template not found: " ++ cp.contentTemplate]) ++
      (if ex dp.1 then []
       else ["Markdown styling guide not found: " ++ dp.1]) ++
      (if ex dp.2 then []
       else ["PlantUML styling guide not found: " ++ dp.2]) ++
      (if ex plantUmlPath then []
       else ["PlantUML directory not found at: " ++ plantUmlPath]) }

/-- The startup decision in `server.js` `main`: the process calls
`process.exit(1)` exactly when `validation.valid` is false; warnings are
only logged and the server goes on to start. -/
def serverExitsAtStartup (v : ValidationResult) : Bool :=
  !v.valid

/-! ## Template substitution (`src/tools/generate-stub.js`)

The replacement regexes of the source, e.g. `/title: ".*?"/`, are
embedded as first-occurrence searches: the pattern `key: "` is located,
the non-greedy `.*?` runs to the next `"`, and the whole match is
replaced.  (This coincides with the JavaScript regex whenever the first
occurrence of `key: "` is closed by a quote on the same line, as it is
in the bundled template.)
-/

/-- `content.replace(/key: ".*?"/, 'key: "value"')`. -/
def replaceField (content key value : String) : String :=
  let pat := key ++ ": \""
  match splitFirst pat.data content.data with
  | none => content
  | some (before, after) =>
    match splitFirst ['"'] after with
    | none => content
    | some (_, rest) =>
      String.mk before ++ pat ++ value ++ "\"" ++ String.mk rest

/-- Whitespace class of the regex `\s`. -/
def isWsChar (c : Char) : Bool :=
  c = ' ' || c = '\n' || c = '\r' || c = '\t'

/-- `\s+`: at least one whitespace character, consumed greedily. -/
def skipWsPlus : List Char → Option (List Char)
  | [] => none
  | c :: cs => if isWsChar c then some (cs.dropWhile isWsChar) else none

/-- `".*?"` continuation: consume up to and including the next `"`. -/
def takeToQuote : List Char → Option (List Char)
  | [] => none
  | c :: cs => if c = '"' then some cs else takeToQuote cs

/-- Match the revision-entry regex
`- number: ".*?"\s+description: ".*?"\s+eco_number: ".*?"\s+eco_date: ".*?"`
at the head of `cs`, returning the remainder after the match. -/
def matchRevAt (cs : List Char) : Option (List Char) := do
  let cs ← dropLit "- number: \"".data cs
  let cs ← takeToQuote cs
  let cs ← skipWsPlus cs
  let cs ← dropLit "description: \"".data cs
  let cs ← takeToQuote cs
  let cs ← skipWsPlus cs
  let cs ← dropLit "eco_number: \"".data cs
  let cs ← takeToQuote cs
  let cs ← skipWsPlus cs
  let cs ← dropLit "eco_date: \"".data cs
  takeToQuote cs

/-- Tail-recursive scan for the first position where the revision-entry
regex matches, accumulating the text before the match in reverse. -/
def findRevEntryAux : List Char → List Char → Option (List Char × List Char)
  | beforeRev, cs =>
    match matchRevAt cs with
    | some rest => some (beforeRev.reverse, rest)
    | none =>
      match cs with
      | [] => none
      | c :: cs => findRevEntryAux (c :: beforeRev) cs

/-- Locate the first position where the revision-entry regex matches:
returns the text before the match and the remainder after it. -/
def findRevEntry (cs : List Char) : Option (List Char × List Char) :=
  findRevEntryAux [] cs

/-- `content.replace(revisionRegex, replacement)` (first occurrence). -/
def replaceRevEntry (content replacement : String) : String :=
  match findRevEntry content.data with
  | none => content
  | some (before, rest) => String.mk before ++ replacement ++ String.mk rest

/-- `[\r\n]` class. -/
def isNlChar (c : Char) : Bool :=
  c = '\n' || c = '\r'

/-- After the opening `---` and its first newline: search for a newline
character directly followed by `---` (the `[\r\n]+---` closer, with the
non-greedy `[\s\S]*?` in between). -/
def hasNlDashes : List Char → Bool
  | [] => false
  | c :: cs => (isNlChar c && (dropLit "---".data cs).isSome) || hasNlDashes cs

/-- The front-matter regex `^---[\r\n]+([\s\S]*?)[\r\n]+---` tested at
one position: `---`, then at least one newline character, then content,
then a newline run followed by `---`. -/
def fmMatchAt (cs : List Char) : Bool :=
  match dropLit "---".data cs with
  | none => false
  | some [] => false
  | some (c :: rest) => isNlChar c && hasNlDashes rest

/-- Try `fmMatchAt` at every line start after the first. -/
def fmSearch : List Char → Bool
  | [] => false
  | c :: cs => (isNlChar c && fmMatchAt cs) || fmSearch cs

/-- The `templateContent.match` test for the multiline front-matter
regex `^---[\r\n]+([\s\S]*?)[\r\n]+---`, anchored at the start of the
text or of any later line. -/
def hasYamlFrontMatter (s : String) : Bool :=
  fmMatchAt s.data || fmSearch s.data

/-! ## Filesystem model for `generate-stub` -/

/-- A filesystem as an association list from path to file content; the
head entry for a path is its current content. -/
def FS := List (String × String)

/-- Read a file's content. -/
def lookupFS : FS → String → Option String
  | [], _ => none
  | (p, c) :: fs, q => if p = q then some c else lookupFS fs q

/-- `existsSync`. -/
def existsFS (fs : FS) (p : String) : Bool :=
  (lookupFS fs p).isSome

/-- Apply a handler's effect trace to a filesystem (`writeFileSync`
stores the new content; spawns do not change the modelled filesystem). -/
def applyEffects (fs : FS) (es : List Effect) : FS :=
  es.foldl (fun fs e =>
    match e with
    | .spawn _ => fs
    | .fsWrite p c => (p, c) :: fs) fs

/-! ## Operation handler: `generate-stub` (`src/tools/generate-stub.js`) -/

/-- The arguments of `dilon_generate_stub`; `output_path` is required by
the tool's input schema, the other nine metadata fields are optional. -/
structure StubArgs where
  output_path : String
  title : Option String := none
  author : Option String := none
  department : Option String := none
  doc_number : Option String := none
  current_revision : Option String := none
  regulatory_rep : Option String := none
  quality_rep : Option String := none
  department_head : Option String := none
  revision_description : Option String := none
  eco_number : Option String := none
  eco_date : Option String := none
deriving DecidableEq, Repr

/-- The replacement map built in `execute` (user values or defaults;
`revision_number` is synchronized to `current_revision`). -/
structure StubReplacements where
  title : String
  author : String
  department : String
  doc_number : String
  current_revision : String
  regulatory_rep : String
  quality_rep : String
  department_head : String
  revision_number : String
  revision_description : String
  eco_number : String
  eco_date : String
deriving DecidableEq, Repr

/-- The `replacements` object of `generate-stub`'s `execute`. -/
def stubReplacements (a : StubArgs) : StubReplacements :=
  { title := jsOr a.title "Document Title"
    author := jsOr a.author "Author Name"
    department := jsOr a.department "--"
    doc_number := jsOr a.doc_number "DD_XXX_XXXXX"
    current_revision := jsOr a.current_revision "00"
    regulatory_rep := jsOr a.regulatory_rep "--"
    quality_rep := jsOr a.quality_rep "--"
    department_head := jsOr a.department_head "--"
    revision_number := jsOr a.current_revision "00"
    revision_description := jsOr a.revision_description "Initial release"
    eco_number := jsOr a.eco_number "ECO-TBD"
    eco_date := jsOr a.eco_date "YYYY-MM-DD" }

/-- The replacement text for the revision-history entry (the source's
template literal, with its four-space continuation indent). -/
def revEntryText (r : StubReplacements) : String :=
  "- number: \"" ++ r.revision_number ++ "\"\n    description: \"" ++
    r.revision_description ++ "\"\n    eco_number: \"" ++ r.eco_number ++
    "\"\n    eco_date: \"" ++ r.eco_date ++ "\""

/-- The eight field replacements followed by the revision-entry
replacement, applied to the template text. -/
def stubContent (template : String) (r : StubReplacements) : String :=
  let c := template
  let c := replaceField c "title" r.title
  let c := replaceField c "author" r.author
  let c := replaceField c "department" r.department
  let c := replaceField c "doc_number" r.doc_number
  let c := replaceField c "current_revision" r.current_revision
  let c := replaceField c "regulatory_rep" r.regulatory_rep
  let c := replaceField c "quality_rep" r.quality_rep
  let c := replaceField c "department_head" r.department_head
  replaceRevEntry c (revEntryText r)

/-- The multi-line success message `generate-stub` builds and passes as
the `data` argument of `createSuccessResponse`. -/
def stubSuccessMessage (outputPath : String) (r : StubReplacements) : String :=
  String.intercalate "\n"
    ["✅ Document stub created successfully",
     "",
     "📄 Output: " ++ outputPath,
     "",
     "📋 Document metadata:",
     "  • Title: " ++ r.title,
     "  • Author: " ++ r.author,
     "  • Department: " ++ r.department,
     "  • Doc Number: " ++ r.doc_number,
     "  • Revision: " ++ r.current_revision,
     "",
     "📝 Next steps:",
     "  1. Edit the document content in the markdown file",
     "  2. Reference the dilon://styling/markdown resource for styling guidelines",
     "  3. Use dilon_compile_doc to generate the final Word document"]

/-- The environment `generate-stub` runs in: the fixed
`TEMPLATE_PATH`, the process working directory, and the filesystem.
`readFileSync` is modelled as succeeding exactly when the file exists. -/
structure StubEnv where
  templatePath : String
  cwd : String
  fs : FS

/-- `execute` of `src/tools/generate-stub.js`: template-existence check,
output-path conflict check, front-matter check, substitution, write.
Returns the response envelope and the effect trace. -/
def generateStub (env : StubEnv) (a : StubArgs) : McpResponse × List Effect :=
  if !existsFS env.fs env.templatePath then
    (createErrorResponse "❌ Template not found"
      ("Template file does not exist at: " ++ env.templatePath), [])
  else
    let templateContent := (lookupFS env.fs env.templatePath).getD ""
    let outputPath := resolvePath env.cwd a.output_path env.cwd
    if existsFS env.fs outputPath then
      (createErrorResponse "❌ File already exists"
        ("Output file already exists: " ++ outputPath ++
         "\nPlease choose a different path or delete the existing file."), [])
    else if !hasYamlFrontMatter templateContent then
      (createErrorResponse "❌ Invalid template"
        ("Template does not contain valid YAML front matter\nTemplate path: " ++
         env.templatePath ++ "\nTemplate start: " ++ strTake templateContent 100), [])
    else
      let r := stubReplacements a
      let outputContent := stubContent templateContent r
      (createSuccessResponse "✅ Document stub created"
        (SpreadArg.str (stubSuccessMessage outputPath r)),
       [Effect.fsWrite outputPath outputContent])

/-! ## Operation handler: document compilation (`src/tools/dilon-compiler.js`) -/

/-- The arguments of `dilon_compile_doc`. -/
structure CompileArgs where
  input_markdown : String
  output_word : Option String := none
  signature_template : Option String := none
  content_template : Option String := none
deriving DecidableEq, Repr

/-- The environment the compile handler runs in: working directory,
`PROJECT_ROOT`, the configured `pythonPath`, `existsSync` before the
external process runs (`exists0`), the process runner keyed by the full
command line, and `existsSync` after the process ran (`existsAfter`). -/
structure CompileEnv where
  cwd : String
  projectRoot : String
  pythonPath : String
  exists0 : String → Bool
  run : String → ExecResult
  existsAfter : String → Bool

/-- The output path: `output_word` resolved if given, else the input
path with its extension replaced by `.docx` via `path.parse`/`format`. -/
def compileOutputPath (cwd : String) (a : CompileArgs) (inputPath : String) : String :=
  match jsSome a.output_word with
  | some o => resolvePath cwd o cwd
  | none => formatPath (dirName inputPath) (stemName inputPath) ".docx"

/-- The template-argument assembly of the compile handler (source lines
interleaving existence checks with `pythonArgs.push`): either an error
envelope, or the extra positional arguments after input and output. -/
def compileTemplateArgs (env : CompileEnv) (a : CompileArgs) :
    Except McpResponse (List String) :=
  match jsSome a.signature_template with
  | some sig =>
    if !env.exists0 (resolvePath env.cwd sig env.cwd) then
      .error (createErrorResponse "‚ùå Signature template not found"
        ("Custom signature template does not exist: " ++ resolvePath env.cwd sig env.cwd))
    else
      match jsSome a.content_template with
      | some ct =>
        if !env.exists0 (resolvePath env.cwd ct env.cwd) then
          .error (createErrorResponse "‚ùå Content template not found"
            ("Custom content template does not exist: " ++ resolvePath env.cwd ct env.cwd))
        else
          .ok [resolvePath env.cwd sig env.cwd, resolvePath env.cwd ct env.cwd]
      | none =>
        .ok [resolvePath env.cwd sig env.cwd,
             (getDilonCompilerPaths env.projectRoot).contentTemplate]
  | none =>
    match jsSome a.content_template with
    | some ct =>
      if !env.exists0 (resolvePath env.cwd ct env.cwd) then
        .error (createErrorResponse "‚ùå Content template not found"
          ("Custom content template does not exist: " ++ resolvePath env.cwd ct env.cwd))
      else
        .ok [(getDilonCompilerPaths env.projectRoot).signatureTemplate,
             resolvePath env.cwd ct env.cwd]
    | none => .ok []

/-- `execute` of `src/tools/dilon-compiler.js`.  (The error-message
characters below are the source file's own literals.)  Returns the
response envelope and the spawn trace. -/
def dilonCompile (env : CompileEnv) (a : CompileArgs) : McpResponse × List Effect :=
  let inputPath := resolvePath env.cwd a.input_markdown env.cwd
  if !env.exists0 inputPath then
    (createErrorResponse "‚ùå Input file not found"
      ("The specified Markdown file does not exist: " ++ inputPath), [])
  else if asciiLower (extName inputPath) ≠ ".md" then
    (createErrorResponse "‚ùå Invalid input file"
      ("Input file must be a Markdown (.md) file. Got: " ++ asciiLower (extName inputPath)), [])
  else
    let outputPath := compileOutputPath env.cwd a inputPath
    let cp := getDilonCompilerPaths env.projectRoot
    if !env.exists0 cp.scriptPath then
      (createErrorResponse "‚ùå Dilon Compiler not found"
        ("The compiler script is not at the expected location: " ++ cp.scriptPath ++
         "\n\nThis is an installation error. Please re-clone the repository or run npm install."), [])
    else
      match compileTemplateArgs env a with
      | .error r => (r, [])
      | .ok extra =>
        let cmd := pyCommand env.pythonPath cp.scriptPath ([inputPath, outputPath] ++ extra)
        let result := env.run cmd
        if !result.success then
          (createErrorResponse "‚ùå Document compilation failed"
            (showErr result.error ++ "\n\nStderr:\n" ++ result.stderr ++
             "\n\nStdout:\n" ++ result.stdout), [Effect.spawn cmd])
        else if !env.existsAfter outputPath then
          (createErrorResponse "‚ùå Output file not created"
            ("The compiler executed but did not create the output file at: " ++ outputPath ++
             "\n\nStdout:\n" ++ result.stdout ++ "\n\nStderr:\n" ++ result.stderr),
           [Effect.spawn cmd])
        else
          (createSuccessResponse
            ("‚úÖ Document compiled successfully!\n\n" ++
             "üìÑ Input:  " ++ inputPath ++ "\n" ++
             "üì¶ Output: " ++ outputPath ++ "\n\n" ++ result.stdout)
            SpreadArg.emptyObj, [Effect.spawn cmd])

/-! ## Operation handler: diagram rendering (`src/tools/plantuml.js`) -/

/-- The arguments of `dilon_plantuml`. -/
structure PumlArgs where
  input_file : String
  output_format : Option String := none
  output_path : Option String := none
deriving DecidableEq, Repr

/-- The environment the PlantUML handler runs in: working directory,
`PROJECT_ROOT` (for the style-guide path), the configured
`plantUmlPath`, `existsSync` before the external process runs, the
process runner keyed by the full command line, and `existsSync` after
the process ran. -/
structure PumlEnv where
  cwd : String
  projectRoot : String
  plantUmlPath : String
  exists0 : String → Bool
  run : String → ExecResult
  existsAfter : String → Bool

/-- `(args.output_format || 'png').toLowerCase()`. -/
def pumlFormat (a : PumlArgs) : String :=
  asciiLower (jsOr a.output_format "png")

/-- The output path: `output_path` resolved if given, else the input
path with the format's extension via `path.parse`/`format`. -/
def pumlOutputPath (cwd : String) (a : PumlArgs) (inputPath : String) : String :=
  match jsSome a.output_path with
  | some o => resolvePath cwd o cwd
  | none => formatPath (dirName inputPath) (stemName inputPath) ("." ++ pumlFormat a)

/-- `join(config.plantUmlPath, 'plantuml.jar')`. -/
def pumlJarPath (plantUmlPath : String) : String :=
  plantUmlPath ++ "/plantuml.jar"

/-- The full command line of the first, aliased invocation:
`executePowerShell` applied to `plantuml -t<format> "<input>"`. -/
def pumlAliasCmd (a : PumlArgs) (inputPath : String) : String :=
  psWrap ("plantuml -t" ++ pumlFormat a ++ " \"" ++ inputPath ++ "\"")

/-- The full command line of the fallback invocation:
`executePowerShell` applied to `java -jar "<jar>" -t<format> "<input>"`. -/
def pumlJavaCmd (plantUmlPath : String) (a : PumlArgs) (inputPath : String) : String :=
  psWrap ("java -jar \"" ++ pumlJarPath plantUmlPath ++ "\" -t" ++ pumlFormat a ++
    " \"" ++ inputPath ++ "\"")

/-- `execute` of `src/tools/plantuml.js`: validation, the aliased
`plantuml` invocation, the `java -jar` fallback gated on a
"not recognized" error signature, the output-artifact check, and the
success message.  Returns the response envelope and the spawn trace. -/
def dilonPlantUml (env : PumlEnv) (a : PumlArgs) : McpResponse × List Effect :=
  let inputPath := resolvePath env.cwd a.input_file env.cwd
  if !env.exists0 inputPath then
    (createErrorResponse "❌ Input file not found"
      ("The specified PlantUML file does not exist: " ++ inputPath), [])
  else if asciiLower (extName inputPath) ≠ ".puml" then
    (createErrorResponse "❌ Invalid input file"
      ("Input file must be a PlantUML (.puml) file. Got: " ++ asciiLower (extName inputPath)), [])
  else
    let outputFormat := pumlFormat a
    let outputPath := pumlOutputPath env.cwd a inputPath
    let plantUmlJar := pumlJarPath env.plantUmlPath
    if !env.exists0 plantUmlJar then
      (createErrorResponse "❌ PlantUML not found"
        ("PlantUML jar file not found at: " ++ plantUmlJar ++
         "\n\nPlease verify your PlantUML installation path in .dilon-tools-config.json"), [])
    else
      let cmd1 := pumlAliasCmd a inputPath
      let result := env.run cmd1
      let afterExec : ExecResult → List Effect → McpResponse × List Effect :=
        fun result trace =>
          if !env.existsAfter outputPath then
            (createErrorResponse "❌ Output file not created"
              ("PlantUML executed but did not create the output file at: " ++ outputPath ++
               "\n\nStdout:\n" ++ result.stdout ++ "\n\nStderr:\n" ++ result.stderr ++
               "\n\nNote: PlantUML may have generated the file with a different name. " ++
               "Check the input directory."), trace)
          else
            let styleGuidePath := getPlantUMLStyleGuide env.projectRoot
            let styleGuideNote :=
              if env.existsAfter styleGuidePath then
                "\n\n📘 Styling Guide: " ++ styleGuidePath
              else ""
            (createSuccessResponse
              ("✅ Diagram generated successfully!\n\n" ++
               "📄 Input:  " ++ inputPath ++ "\n" ++
               "📦 Output: " ++ outputPath ++ "\n" ++
               "🎨 Format: " ++ asciiUpper outputFormat ++ styleGuideNote)
              SpreadArg.emptyObj, trace)
      if !result.success then
        if errIncludes result.error "not recognized" then
          let cmd2 := pumlJavaCmd env.plantUmlPath a inputPath
          let javaResult := env.run cmd2
          if !javaResult.success then
            (createErrorResponse "❌ PlantUML execution failed"
              ("Both 'plantuml' command and 'java -jar' execution failed.\n\n" ++
               "Error: " ++ showErr javaResult.error ++ "\n\nStderr:\n" ++ javaResult.stderr ++
               "\n\nStdout:\n" ++ javaResult.stdout ++
               "\n\nPlease ensure PlantUML is properly installed and Java is available in PATH."),
             [Effect.spawn cmd1, Effect.spawn cmd2])
          else
            afterExec { result with stdout := javaResult.stdout, stderr := javaResult.stderr }
              [Effect.spawn cmd1, Effect.spawn cmd2]
        else
          (createErrorResponse "❌ PlantUML execution failed"
            (showErr result.error ++ "\n\nStderr:\n" ++ result.stderr ++
             "\n\nStdout:\n" ++ result.stdout), [Effect.spawn cmd1])
      else
        afterExec result [Effect.spawn cmd1]

/-! ## Dispatcher (`server.js`, `CallToolRequestSchema` handler) -/

/-- The outcome of awaiting a handler inside the dispatcher's `try`:
either the response it returned, or an exception that escaped it. -/
inductive HandlerOutcome where
  | ok (r : McpResponse) : HandlerOutcome
  | thrown (message : String) : HandlerOutcome
deriving DecidableEq, Repr

/-- The `switch`/`catch` body of the `CallToolRequestSchema` handler in
`server.js`: route by tool name, return the `Unknown tool` envelope on
any unregistered name, and convert an exception escaping the routed
handler into the uniform error envelope. -/
def callToolHandler (compileOutcome plantOutcome stubOutcome : HandlerOutcome)
    (name : String) : McpResponse :=
  let run : HandlerOutcome → McpResponse := fun o =>
    match o with
    | .ok r => r
    | .thrown m =>
      { content := [{ type := "text", text := "Error executing tool " ++ name ++ ": " ++ m }]
        isError := true
        extraProps := [] }
  if name = "dilon_compile_doc" then run compileOutcome
  else if name = "dilon_plantuml" then run plantOutcome
  else if name = "dilon_generate_stub" then run stubOutcome
  else
    { content := [{ type := "text", text := "Unknown tool: " ++ name }]
      isError := true
      extraProps := [] }
/-- Exact text of docs/TEMPLATE_Document.md up to and including the closing front-matter delimiter line. -/
def dilonFrontMatter : String :=
  "---\ntitle: \"Document Title\"\nauthor: \"Author Name\"\ndepartment: \"Engineering\"\ndoc_number: \"DD_XXX_XXXXX\"\ncurrent_revision: \"1.0\"\nregulatory_rep: \"Shannon Smith\"\nquality_rep: \"Kevin Johnson\"\ndepartment_head: \"Josh Williams\"\nrevisions:\n  - number: \"1.0\"\n    description: \"Initial release\"\n    eco_number: \"ECO-TBD\"\n    eco_date: \"YYYY-MM-DD\"\n---\n"

/-- Exact text of docs/TEMPLATE_Document.md after the front-matter block. -/
def dilonTemplateBody : String :=
  "\n## 1. Purpose and Scope\n\n### 1.1 Purpose\n[Describe the purpose of this document]\n\n### 1.2 Scope\n[Describe the scope of this document]\n\n### 1.3 Medical Device Context (if applicable)\n- **Device Classification**: ISO 62304 Class B Medical Device\n- **Regulatory**: FDA submission requirements\n- **Safety-Critical**: Real-time gamma ray detection for surgical navigation\n\n## 2. Section Title\n\n### 2.1 Subsection\n\n[Content goes here]\n\n### 2.2 Another Subsection\n\n[Content goes here]\n\n## 3. Requirements (if applicable)\n\n### 3.1 Functional Requirements\n\n- **REQ-001**: System SHALL [requirement text]\n- **REQ-002**: System SHALL [requirement text]\n\n### 3.2 Non-Functional Requirements\n\n- **REQ-003**: System SHALL [requirement text]\n\n## 4. Additional Sections\n\n[Add sections as needed]\n\n---\n\n## Notes for Using This Template\n\n1. **YAML Front Matter** (lines 1-13):\n   - Keep the `---` delimiters\n   - Update all field values with your document information\n   - `title`: Full document title\n   - `author`: Primary author or team name\n   - `department`: Usually \"Engineering\" for technical documents\n   - `doc_number`: Dilon document number (format: DD_XXX_XXXXX)\n   - `current_revision`: Current revision number\n   - `regulatory_rep`, `quality_rep`, `department_head`: Names of approvers\n   - `revisions`: Array of revision history entries\n     - Add new entries for each revision\n     - Include: `number`, `description`, `eco_number`, `eco_date`\n\n2. **Document Content** (after front matter):\n   - Use standard Markdown syntax\n   - Headings: `##` for main sections, `###` for subsections\n   - Lists: `-` for bullets, `1.` for numbered\n   - Tables: Standard Markdown table syntax\n   - Code blocks: Use triple backticks\n   - Bold: `**text**`\n   - Italic: `*text*`\n\n3. **Generating Word Document**:\n   ```bash\n   python generate_dilon_doc.py your_document.md output_document.docx\n   ```\n\n4. **Adding Revisions**:\n   When creating a new revision, add a new entry to the `revisions` array:\n   ```yaml\n   revisions:\n     - number: \"1.0\"\n       description: \"Initial release\"\n       eco_number: \"ECO-001\"\n       eco_date: \"2025-09-25\"\n     - number: \"1.1\"\n       description: \"Updated requirements\"\n       eco_number: \"ECO-002\"\n       eco_date: \"2025-10-02\"\n   ```\n   And update `current_revision` to match the latest revision number.\n\n5. **Delete This Section**:\n   Remove this \"Notes for Using This Template\" section before generating your final document.\n"

/-- The bundled document template: front matter followed by the body. -/
def dilonTemplate : String := dilonFrontMatter ++ dilonTemplateBody

/-- The front matter that results from substituting the default field values. -/
def dilonStubFrontMatter : String :=
  "---\ntitle: \"Document Title\"\nauthor: \"Author Name\"\ndepartment: \"--\"\ndoc_number: \"DD_XXX_XXXXX\"\ncurrent_revision: \"00\"\nregulatory_rep: \"--\"\nquality_rep: \"--\"\ndepartment_head: \"--\"\nrevisions:\n  - number: \"00\"\n    description: \"Initial release\"\n    eco_number: \"ECO-TBD\"\n    eco_date: \"YYYY-MM-DD\"\n---\n"


/-! ## Helper lemmas -/

theorem eqChars_sound : ∀ as bs : List Char, eqChars as bs = true → as = bs
  | [], [], _ => rfl
  | a :: as, b :: bs, h => by
    simp only [eqChars, Bool.and_eq_true, beq_iff_eq] at h
    exact h.1 ▸ congrArg (a :: ·) (eqChars_sound as bs h.2)
  | [], _ :: _, h => by simp [eqChars] at h
  | _ :: _, [], h => by simp [eqChars] at h

theorem strEqB_sound {s t : String} (h : strEqB s t = true) : s = t := by
  cases s with
  | mk a => cases t with
    | mk b => exact congrArg String.mk (eqChars_sound a b h)

theorem splitSlashAux_sep (xs : List Char) :
    ∀ (acc ys : List Char),
      splitSlashAux acc (xs ++ '/' :: ys) = splitSlashAux acc xs ++ splitSlashAux [] ys := by
  induction xs with
  | nil => intro acc ys; simp [splitSlashAux]
  | cons c cs ih =>
    intro acc ys
    by_cases hc : c = '/'
    · subst hc; simp [splitSlashAux, ih]
    · simp [splitSlashAux, hc, ih]

theorem segments_sep (a b : String) : segments (a ++ "/" ++ b) = segments a ++ segments b := by
  unfold segments
  have h : (a ++ "/" ++ b).data = a.data ++ '/' :: b.data := by
    simp [String.data_append]
  rw [h, splitSlashAux_sep, List.filter_append]

theorem segments_trail (a : String) : segments (a ++ "/") = segments a := by
  unfold segments
  have h : (a ++ "/").data = a.data ++ '/' :: [] := by
    simp [String.data_append]
  rw [h, splitSlashAux_sep]
  simp [splitSlashAux]

theorem normAbsPath_congr {x y : String} (h : segments x = segments y) :
    normAbsPath x = normAbsPath y := by
  unfold normAbsPath; rw [h]

theorem isAbsolute_ne_empty {p : String} (h : isAbsolute p = true) : p ≠ "" := by
  intro he; subst he; simp [isAbsolute] at h

theorem isAbsolute_append {p : String} (s : String) (h : isAbsolute p = true) :
    isAbsolute (p ++ s) = true := by
  unfold isAbsolute at h ⊢
  rw [String.data_append]
  cases hd : p.data with
  | nil => rw [hd] at h; simp at h
  | cons c t => rw [hd] at h; simpa using h

theorem segments_empty : segments "" = [] := by decide

theorem pathStep_empty (acc : String × Bool) : pathStep acc "" = acc := by
  simp [pathStep]

theorem pathStep_go (s : String) (part : String) (hne : part ≠ "") :
    pathStep (s, false) part = (part ++ "/" ++ s, isAbsolute part) := by
  simp [pathStep, hne]

theorem resolve_abs (cwd p : String) (h : isAbsolute p = true) :
    nodeResolve cwd [p] = normAbsPath p := by
  have hne : p ≠ "" := isAbsolute_ne_empty h
  unfold nodeResolve
  rw [show ([p] : List String).reverse = [p] from rfl, List.foldl_cons, List.foldl_nil,
    pathStep_go "" p hne, h]
  simp only [if_true]
  apply normAbsPath_congr
  rw [segments_sep, segments_empty, List.append_nil]

theorem resolve_rel (cwd base p : String) (hp : isAbsolute p = false)
    (hb : isAbsolute base = true) :
    nodeResolve cwd [base, p] = normAbsPath (base ++ "/" ++ p) := by
  have hbne : base ≠ "" := isAbsolute_ne_empty hb
  unfold nodeResolve
  rw [show ([base, p] : List String).reverse = [p, base] from rfl,
    List.foldl_cons, List.foldl_cons, List.foldl_nil]
  by_cases hpe : p = ""
  · subst hpe
    rw [pathStep_empty, pathStep_go "" base hbne, hb]
    simp only [if_true]
  · rw [pathStep_go "" p hpe, hp, pathStep_go _ base hbne, hb]
    simp only [if_true]
    apply normAbsPath_congr
    rw [segments_sep, segments_sep, segments_sep, segments_empty, List.append_nil]

/-! ## Claim theorems -/

/-- C9: `resolvePath` returns every absolute input path normalized, with
the base directory ignored; for a relative input path and an (absolute)
base directory it returns the normalized join of base and input, and the
result is the same whether or not the base directory string carries a
trailing path separator. -/
theorem C9_resolvePath_correct :
    (∀ cwd basePath p : String, isAbsolute p = true →
        resolvePath cwd p basePath = normAbsPath p) ∧
    (∀ cwd basePath p : String, isAbsolute p = false → isAbsolute basePath = true →
        resolvePath cwd p basePath = normAbsPath (basePath ++ "/" ++ p) ∧
        resolvePath cwd p (basePath ++ "/") = resolvePath cwd p basePath) := by
  constructor
  · intro cwd basePath p h
    rw [resolvePath, if_pos h, resolve_abs cwd p h]
  · intro cwd basePath p hp hb
    have hb2 : isAbsolute (basePath ++ "/") = true := isAbsolute_append "/" hb
    constructor
    · rw [resolvePath, if_neg (by simp [hp]), resolve_rel cwd basePath p hp hb]
    · rw [resolvePath, if_neg (by simp [hp]), resolvePath, if_neg (by simp [hp]),
        resolve_rel cwd _ p hp hb2, resolve_rel cwd basePath p hp hb]
      apply normAbsPath_congr
      rw [segments_sep, segments_sep, segments_trail]

/-- Witness for C9 at concrete paths. -/
theorem C9_resolvePath_correct_witness :
    resolvePath "/w" "/a/b.md" "/base" = normAbsPath "/a/b.md" ∧
    resolvePath "/w" "x/y.md" "/base" = normAbsPath ("/base" ++ "/" ++ "x/y.md") ∧
    resolvePath "/w" "x/y.md" ("/base" ++ "/") = resolvePath "/w" "x/y.md" "/base" :=
  ⟨C9_resolvePath_correct.1 "/w" "/base" "/a/b.md" (by decide),
   (C9_resolvePath_correct.2 "/w" "/base" "x/y.md" (by decide) (by decide)).1,
   (C9_resolvePath_correct.2 "/w" "/base" "x/y.md" (by decide) (by decide)).2⟩

/-- C4: the dispatcher returns the `Unknown tool` error envelope (with
`isError` set) for every unregistered operation name, wraps an exception
escaping a routed handler into the uniform error envelope containing the
exception message, and passes a returned response through unchanged —
every request yields a response, so no single bad request terminates the
dispatch loop. -/
theorem C4_dispatcher_uniform_errors :
    (∀ (co po so : HandlerOutcome) (name : String),
        name ≠ "dilon_compile_doc" → name ≠ "dilon_plantuml" → name ≠ "dilon_generate_stub" →
        callToolHandler co po so name =
          { content := [{ type := "text", text := "Unknown tool: " ++ name }],
            isError := true, extraProps := [] }) ∧
    (∀ (po so : HandlerOutcome) (m : String),
        callToolHandler (.thrown m) po so "dilon_compile_doc" =
          { content := [{ type := "text",
                          text := "Error executing tool dilon_compile_doc: " ++ m }],
            isError := true, extraProps := [] }) ∧
    (∀ (co so : HandlerOutcome) (m : String),
        callToolHandler co (.thrown m) so "dilon_plantuml" =
          { content := [{ type := "text",
                          text := "Error executing tool dilon_plantuml: " ++ m }],
            isError := true, extraProps := [] }) ∧
    (∀ (co po : HandlerOutcome) (m : String),
        callToolHandler co po (.thrown m) "dilon_generate_stub" =
          { content := [{ type := "text",
                          text := "Error executing tool dilon_generate_stub: " ++ m }],
            isError := true, extraProps := [] }) ∧
    (∀ (r : McpResponse) (po so : HandlerOutcome),
        callToolHandler (.ok r) po so "dilon_compile_doc" = r) := by
  refine ⟨fun co po so name h1 h2 h3 => ?_, fun po so m => ?_, fun co so m => ?_,
    fun co po m => ?_, fun r po so => ?_⟩ <;>
    simp_all [callToolHandler]

/-- Witness for C4 at a concrete unknown name and a concrete thrown
exception. -/
theorem C4_dispatcher_uniform_errors_witness :
    callToolHandler (.ok (createSuccessResponse "ok" .emptyObj))
        (.ok (createSuccessResponse "ok" .emptyObj))
        (.ok (createSuccessResponse "ok" .emptyObj)) "no_such_tool" =
      { content := [{ type := "text", text := "Unknown tool: " ++ "no_such_tool" }],
        isError := true, extraProps := [] } ∧
    callToolHandler (.thrown "boom") (.ok (createSuccessResponse "ok" .emptyObj))
        (.ok (createSuccessResponse "ok" .emptyObj)) "dilon_compile_doc" =
      { content := [{ type := "text",
                      text := "Error executing tool dilon_compile_doc: " ++ "boom" }],
        isError := true, extraProps := [] } :=
  ⟨C4_dispatcher_uniform_errors.1 _ _ _ "no_such_tool" (by decide) (by decide) (by decide),
   C4_dispatcher_uniform_errors.2.1 _ _ "boom"⟩

/-- C5: `loadConfig`'s required-field validation fails exactly on the
configurations in which one of `pythonPath`, `plantUmlPath`,
`pandocPath` is missing or empty, with an error message naming exactly
the missing fields; when all three are present and non-empty the parsed
configuration object is returned unchanged. -/
theorem C5_loadConfig_required_fields :
    (∀ (f : String) (c : ConfigJson),
        ("pythonPath" ∈ missingConfigFields c ↔ fieldTruthy c.pythonPath = false) ∧
        ("plantUmlPath" ∈ missingConfigFields c ↔ fieldTruthy c.plantUmlPath = false) ∧
        ("pandocPath" ∈ missingConfigFields c ↔ fieldTruthy c.pandocPath = false) ∧
        (missingConfigFields c ≠ [] →
          loadConfigValidated f c = .error
            ("Failed to load configuration from " ++ f ++
             ": Missing required configuration fields: " ++
             String.intercalate ", " (missingConfigFields c))) ∧
        (missingConfigFields c = [] → loadConfigValidated f c = .ok c)) ∧
    (∀ c : ConfigJson, missingConfigFields c = [] ↔
        (fieldTruthy c.pythonPath = true ∧ fieldTruthy c.plantUmlPath = true ∧
         fieldTruthy c.pandocPath = true)) := by
  constructor
  · intro f c
    by_cases h1 : fieldTruthy c.pythonPath = true <;>
    by_cases h2 : fieldTruthy c.plantUmlPath = true <;>
    by_cases h3 : fieldTruthy c.pandocPath = true <;>
      simp_all [missingConfigFields, configField, loadConfigValidated]
  · intro c
    by_cases h1 : fieldTruthy c.pythonPath = true <;>
    by_cases h2 : fieldTruthy c.plantUmlPath = true <;>
    by_cases h3 : fieldTruthy c.pandocPath = true <;>
      simp_all [missingConfigFields, configField]

/-- Witness for C5: a configuration missing `plantUmlPath` and with an
empty `pandocPath`, and a complete configuration. -/
theorem C5_loadConfig_required_fields_witness :
    loadConfigValidated "/app/.dilon-tools-config.json"
        { pythonPath := some "python", plantUmlPath := none, pandocPath := some "" } =
      .error ("Failed to load configuration from /app/.dilon-tools-config.json" ++
        ": Missing required configuration fields: " ++
        String.intercalate ", "
          (missingConfigFields
            { pythonPath := some "python", plantUmlPath := none, pandocPath := some "" })) ∧
    loadConfigValidated "/app/.dilon-tools-config.json"
        { pythonPath := some "python", plantUmlPath := some "/pu", pandocPath := some "/pd" } =
      .ok { pythonPath := some "python", plantUmlPath := some "/pu", pandocPath := some "/pd" } := by
  constructor
  · have h := (C5_loadConfig_required_fields.1 "/app/.dilon-tools-config.json"
      { pythonPath := some "python", plantUmlPath := none, pandocPath := some "" }).2.2.2.1
      (by decide)
    simpa using h
  · exact (C5_loadConfig_required_fields.1 "/app/.dilon-tools-config.json"
      { pythonPath := some "python", plantUmlPath := some "/pu", pandocPath := some "/pd" }).2.2.2.2
      (by decide)

/-- C6: `validateToolPaths` clears `valid` exactly when the embedded
compiler script is missing (the error entry naming its path); all other
checks only add warnings, and the server's startup exit decision tracks
`valid` alone, so the process starts whenever the script exists, however
many warnings were collected. -/
theorem C6_validateToolPaths_hard_soft :
    ∀ (ex : String → Bool) (root pumlPath : String),
      ((validateToolPaths ex root pumlPath).valid = false ↔
        ex (getDilonCompilerPaths root).scriptPath = false) ∧
      ((validateToolPaths ex root pumlPath).valid = false →
        (validateToolPaths ex root pumlPath).errors =
          ["Dilon Compiler script not found at: " ++ (getDilonCompilerPaths root).scriptPath]) ∧
      ((validateToolPaths ex root pumlPath).valid = true →
        (validateToolPaths ex root pumlPath).errors = []) ∧
      (ex (getDilonCompilerPaths root).scriptPath = true →
        (validateToolPaths ex root pumlPath).valid = true ∧
        serverExitsAtStartup (validateToolPaths ex root pumlPath) = false) ∧
      (serverExitsAtStartup (validateToolPaths ex root pumlPath) = true ↔
        ex (getDilonCompilerPaths root).scriptPath = false) := by
  intro ex root pumlPath
  by_cases h : ex (getDilonCompilerPaths root).scriptPath = true <;>
    simp_all [validateToolPaths, serverExitsAtStartup]

/-- Witness for C6: only the compiler script exists (all soft assets
missing) — validation stays valid with warnings and the server starts;
with nothing on disk validation fails naming the script path. -/
theorem C6_validateToolPaths_hard_soft_witness :
    (validateToolPaths
        (fun s => s = "/r/tools/Dilon_Document_Compiler/generate_dilon_doc.py") "/r" "/pu").valid
      = true ∧
    serverExitsAtStartup
      (validateToolPaths
        (fun s => s = "/r/tools/Dilon_Document_Compiler/generate_dilon_doc.py") "/r" "/pu")
      = false ∧
    (validateToolPaths
        (fun s => s = "/r/tools/Dilon_Document_Compiler/generate_dilon_doc.py") "/r" "/pu").warnings
      ≠ [] ∧
    ((validateToolPaths (fun _ => false) "/r" "/pu").valid = false ∧
     (validateToolPaths (fun _ => false) "/r" "/pu").errors =
       ["Dilon Compiler script not found at: " ++
         (getDilonCompilerPaths "/r").scriptPath]) := by
  refine ⟨?_, ?_, ?_, ?_, ?_⟩
  · exact ((C6_validateToolPaths_hard_soft
      (fun s => s = "/r/tools/Dilon_Document_Compiler/generate_dilon_doc.py") "/r" "/pu").2.2.2.1
      (by decide)).1
  · exact ((C6_validateToolPaths_hard_soft
      (fun s => s = "/r/tools/Dilon_Document_Compiler/generate_dilon_doc.py") "/r" "/pu").2.2.2.1
      (by decide)).2
  · decide
  · exact ((C6_validateToolPaths_hard_soft (fun _ => false) "/r" "/pu").1).mpr (by decide)
  · exact ((C6_validateToolPaths_hard_soft (fun _ => false) "/r" "/pu").2.1) (by decide)

theorem isError_createError (m d : String) : (createErrorResponse m d).isError = true := rfl

theorem isError_createSuccess (m : String) (d : SpreadArg) :
    (createSuccessResponse m d).isError = false := rfl

/-- C3: when the resolved input path does not exist, both the
compile-document and render-diagram handlers return an error envelope
with an empty effect trace (no process spawned, no file written), and
compile-document does the same when the input exists but its
lower-cased extension is not `.md`. -/
theorem C3_reject_before_spawn :
    (∀ (env : CompileEnv) (a : CompileArgs),
        env.exists0 (resolvePath env.cwd a.input_markdown env.cwd) = false →
        (dilonCompile env a).1.isError = true ∧ (dilonCompile env a).2 = []) ∧
    (∀ (env : PumlEnv) (a : PumlArgs),
        env.exists0 (resolvePath env.cwd a.input_file env.cwd) = false →
        (dilonPlantUml env a).1.isError = true ∧ (dilonPlantUml env a).2 = []) ∧
    (∀ (env : CompileEnv) (a : CompileArgs),
        env.exists0 (resolvePath env.cwd a.input_markdown env.cwd) = true →
        asciiLower (extName (resolvePath env.cwd a.input_markdown env.cwd)) ≠ ".md" →
        (dilonCompile env a).1.isError = true ∧ (dilonCompile env a).2 = []) := by
  refine ⟨fun env a h => ?_, fun env a h => ?_, fun env a h1 h2 => ?_⟩
  · simp [dilonCompile, h, isError_createError]
  · simp [dilonPlantUml, h, isError_createError]
  · simp [dilonCompile, h1, h2, isError_createError]

/-- Witness for C3: a missing Markdown input, a missing PlantUML input,
and an existing `.txt` input. -/
theorem C3_reject_before_spawn_witness :
    ((dilonCompile
        { cwd := "/w", projectRoot := "/r", pythonPath := "python",
          exists0 := fun _ => false, run := fun _ => ⟨true, "", "", none⟩,
          existsAfter := fun _ => false }
        { input_markdown := "doc.md" }).1.isError = true ∧
      (dilonCompile
        { cwd := "/w", projectRoot := "/r", pythonPath := "python",
          exists0 := fun _ => false, run := fun _ => ⟨true, "", "", none⟩,
          existsAfter := fun _ => false }
        { input_markdown := "doc.md" }).2 = []) ∧
    ((dilonPlantUml
        { cwd := "/w", projectRoot := "/r", plantUmlPath := "/pu",
          exists0 := fun _ => false, run := fun _ => ⟨true, "", "", none⟩,
          existsAfter := fun _ => false }
        { input_file := "d.puml" }).1.isError = true ∧
      (dilonPlantUml
        { cwd := "/w", projectRoot := "/r", plantUmlPath := "/pu",
          exists0 := fun _ => false, run := fun _ => ⟨true, "", "", none⟩,
          existsAfter := fun _ => false }
        { input_file := "d.puml" }).2 = []) ∧
    ((dilonCompile
        { cwd := "/w", projectRoot := "/r", pythonPath := "python",
          exists0 := fun p => p = "/w/notes.txt", run := fun _ => ⟨true, "", "", none⟩,
          existsAfter := fun _ => false }
        { input_markdown := "notes.txt" }).1.isError = true ∧
      (dilonCompile
        { cwd := "/w", projectRoot := "/r", pythonPath := "python",
          exists0 := fun p => p = "/w/notes.txt", run := fun _ => ⟨true, "", "", none⟩,
          existsAfter := fun _ => false }
        { input_markdown := "notes.txt" }).2 = []) :=
  ⟨C3_reject_before_spawn.1 _ _ (by decide),
   C3_reject_before_spawn.2.1 _ _ (by decide),
   C3_reject_before_spawn.2.2 _ _ (by decide) (by decide)⟩

/-- C2: after a failed first (aliased) invocation the render-diagram
handler attempts the `java -jar` fallback exactly when the failure's
error description contains "not recognized": otherwise it returns the
first attempt's error immediately with a single spawn in its trace;
with the signature present it spawns both commands, and if the fallback
also fails it reports that both attempts failed with the fallback's
error, stderr and stdout. -/
theorem C2_plantuml_fallback_gate :
    ∀ (env : PumlEnv) (a : PumlArgs) (inP cmd1 cmd2 : String),
      inP = resolvePath env.cwd a.input_file env.cwd →
      cmd1 = pumlAliasCmd a inP →
      cmd2 = pumlJavaCmd env.plantUmlPath a inP →
      env.exists0 inP = true →
      asciiLower (extName inP) = ".puml" →
      env.exists0 (pumlJarPath env.plantUmlPath) = true →
      (env.run cmd1).success = false →
      ((errIncludes (env.run cmd1).error "not recognized" = false →
          dilonPlantUml env a =
            (createErrorResponse "❌ PlantUML execution failed"
              (showErr (env.run cmd1).error ++ "\n\nStderr:\n" ++ (env.run cmd1).stderr ++
               "\n\nStdout:\n" ++ (env.run cmd1).stdout),
             [Effect.spawn cmd1])) ∧
       (errIncludes (env.run cmd1).error "not recognized" = true →
          (dilonPlantUml env a).2 = [Effect.spawn cmd1, Effect.spawn cmd2]) ∧
       (errIncludes (env.run cmd1).error "not recognized" = true →
          (env.run cmd2).success = false →
          dilonPlantUml env a =
            (createErrorResponse "❌ PlantUML execution failed"
              ("Both 'plantuml' command and 'java -jar' execution failed.\n\n" ++
               "Error: " ++ showErr (env.run cmd2).error ++ "\n\nStderr:\n" ++
               (env.run cmd2).stderr ++ "\n\nStdout:\n" ++ (env.run cmd2).stdout ++
               "\n\nPlease ensure PlantUML is properly installed and Java is available in PATH."),
             [Effect.spawn cmd1, Effect.spawn cmd2]))) := by
  intro env a inP cmd1 cmd2 hin hc1 hc2 hex hext hjar hfail
  subst hin hc1 hc2
  refine ⟨fun hnr => ?_, fun hnr => ?_, fun hnr h2 => ?_⟩
  · simp [dilonPlantUml, hex, hext, hjar, hfail, hnr]
  · by_cases h2 : (env.run (pumlJavaCmd env.plantUmlPath a
        (resolvePath env.cwd a.input_file env.cwd))).success = true
    · by_cases hout : env.existsAfter (pumlOutputPath env.cwd a
          (resolvePath env.cwd a.input_file env.cwd)) = true <;>
        simp [dilonPlantUml, hex, hext, hjar, hfail, hnr, h2, hout]
    · simp at h2
      simp [dilonPlantUml, hex, hext, hjar, hfail, hnr, h2]
  · simp [dilonPlantUml, hex, hext, hjar, hfail, hnr, h2]

/-- Witness for C2: a failure without the signature (no fallback
spawned) and a "not recognized" failure whose fallback also fails. -/
theorem C2_plantuml_fallback_gate_witness :
    (dilonPlantUml
        { cwd := "/w", projectRoot := "/r", plantUmlPath := "/pu",
          exists0 := fun p => p = "/w/d.puml" || p = "/pu/plantuml.jar",
          run := fun _ => ⟨false, "", "", some "some other failure"⟩,
          existsAfter := fun _ => false }
        { input_file := "d.puml" } =
      (createErrorResponse "❌ PlantUML execution failed"
        (showErr (some "some other failure") ++ "\n\nStderr:\n" ++ "" ++
         "\n\nStdout:\n" ++ ""),
       [Effect.spawn (pumlAliasCmd { input_file := "d.puml" }
          (resolvePath "/w" "d.puml" "/w"))])) ∧
    (dilonPlantUml
        { cwd := "/w", projectRoot := "/r", plantUmlPath := "/pu",
          exists0 := fun p => p = "/w/d.puml" || p = "/pu/plantuml.jar",
          run := fun c =>
            if c = pumlAliasCmd { input_file := "d.puml" } (resolvePath "/w" "d.puml" "/w")
            then ⟨false, "", "", some "The term 'plantuml' is not recognized"⟩
            else ⟨false, "", "java: jar not found", some "java exited 1"⟩,
          existsAfter := fun _ => false }
        { input_file := "d.puml" } =
      (createErrorResponse "❌ PlantUML execution failed"
        ("Both 'plantuml' command and 'java -jar' execution failed.\n\n" ++
         "Error: " ++ showErr (some "java exited 1") ++ "\n\nStderr:\n" ++
         "java: jar not found" ++ "\n\nStdout:\n" ++ "" ++
         "\n\nPlease ensure PlantUML is properly installed and Java is available in PATH."),
       [Effect.spawn (pumlAliasCmd { input_file := "d.puml" }
          (resolvePath "/w" "d.puml" "/w")),
        Effect.spawn (pumlJavaCmd "/pu" { input_file := "d.puml" }
          (resolvePath "/w" "d.puml" "/w"))])) := by
  constructor
  · have h := (C2_plantuml_fallback_gate
      { cwd := "/w", projectRoot := "/r", plantUmlPath := "/pu",
        exists0 := fun p => p = "/w/d.puml" || p = "/pu/plantuml.jar",
        run := fun _ => ⟨false, "", "", some "some other failure"⟩,
        existsAfter := fun _ => false }
      { input_file := "d.puml" } _ _ _ rfl rfl rfl
      (by decide) (by decide) (by decide) (by decide)).1 (by decide)
    exact h
  · have h := (C2_plantuml_fallback_gate
      { cwd := "/w", projectRoot := "/r", plantUmlPath := "/pu",
        exists0 := fun p => p = "/w/d.puml" || p = "/pu/plantuml.jar",
        run := fun c =>
          if c = pumlAliasCmd { input_file := "d.puml" } (resolvePath "/w" "d.puml" "/w")
          then ⟨false, "", "", some "The term 'plantuml' is not recognized"⟩
          else ⟨false, "", "java: jar not found", some "java exited 1"⟩,
        existsAfter := fun _ => false }
      { input_file := "d.puml" } _ _ _ rfl rfl rfl
      (by decide) (by decide) (by decide) (by decide)).2.2 (by decide) (by decide)
    simpa using h

theorem compileTemplateArgs_error_isError (env : CompileEnv) (a : CompileArgs)
    (r : McpResponse) (h : compileTemplateArgs env a = .error r) : r.isError = true := by
  unfold compileTemplateArgs at h
  rcases hs : jsSome a.signature_template with _ | sig
  · rw [hs] at h
    simp only [] at h
    rcases hc : jsSome a.content_template with _ | ct
    · rw [hc] at h; simp only [] at h; cases h
    · rw [hc] at h; simp only [] at h
      by_cases he : (!env.exists0 (resolvePath env.cwd ct env.cwd)) = true
      · rw [if_pos he] at h; cases h; rfl
      · rw [if_neg he] at h; cases h
  · rw [hs] at h
    simp only [] at h
    by_cases he : (!env.exists0 (resolvePath env.cwd sig env.cwd)) = true
    · rw [if_pos he] at h; cases h; rfl
    · rw [if_neg he] at h
      rcases hc : jsSome a.content_template with _ | ct
      · rw [hc] at h; simp only [] at h; cases h
      · rw [hc] at h; simp only [] at h
        by_cases he2 : (!env.exists0 (resolvePath env.cwd ct env.cwd)) = true
        · rw [if_pos he2] at h; cases h; rfl
        · rw [if_neg he2] at h; cases h

/-- C1: a success envelope is returned by the compile-document or
render-diagram handler only when the spawned process reported success
and the expected output file exists afterwards; if every validation
passed and the process succeeded but the output file does not exist,
the handler returns the "executed but did not create the output file"
error envelope carrying the captured stdout and stderr. -/
theorem C1_success_requires_artifact :
    (∀ (env : CompileEnv) (a : CompileArgs),
        (dilonCompile env a).1.isError = false →
        ∃ cmd : String,
          (dilonCompile env a).2 = [Effect.spawn cmd] ∧
          (env.run cmd).success = true ∧
          env.existsAfter
            (compileOutputPath env.cwd a (resolvePath env.cwd a.input_markdown env.cwd)) = true) ∧
    (∀ (env : CompileEnv) (a : CompileArgs) (extra : List String) (inP outP cmd : String),
        inP = resolvePath env.cwd a.input_markdown env.cwd →
        outP = compileOutputPath env.cwd a inP →
        cmd = pyCommand env.pythonPath (getDilonCompilerPaths env.projectRoot).scriptPath
          (inP :: outP :: extra) →
        env.exists0 inP = true →
        asciiLower (extName inP) = ".md" →
        env.exists0 (getDilonCompilerPaths env.projectRoot).scriptPath = true →
        compileTemplateArgs env a = .ok extra →
        (env.run cmd).success = true →
        env.existsAfter outP = false →
        dilonCompile env a =
          (createErrorResponse "‚ùå Output file not created"
            ("The compiler executed but did not create the output file at: " ++ outP ++
             "\n\nStdout:\n" ++ (env.run cmd).stdout ++ "\n\nStderr:\n" ++ (env.run cmd).stderr),
           [Effect.spawn cmd])) ∧
    (∀ (env : PumlEnv) (a : PumlArgs),
        (dilonPlantUml env a).1.isError = false →
        ((env.run (pumlAliasCmd a (resolvePath env.cwd a.input_file env.cwd))).success = true ∨
         (env.run (pumlJavaCmd env.plantUmlPath a
            (resolvePath env.cwd a.input_file env.cwd))).success = true) ∧
        env.existsAfter
          (pumlOutputPath env.cwd a (resolvePath env.cwd a.input_file env.cwd)) = true) ∧
    (∀ (env : PumlEnv) (a : PumlArgs) (inP outP cmd1 : String),
        inP = resolvePath env.cwd a.input_file env.cwd →
        outP = pumlOutputPath env.cwd a inP →
        cmd1 = pumlAliasCmd a inP →
        env.exists0 inP = true →
        asciiLower (extName inP) = ".puml" →
        env.exists0 (pumlJarPath env.plantUmlPath) = true →
        (env.run cmd1).success = true →
        env.existsAfter outP = false →
        dilonPlantUml env a =
          (createErrorResponse "❌ Output file not created"
            ("PlantUML executed but did not create the output file at: " ++ outP ++
             "\n\nStdout:\n" ++ (env.run cmd1).stdout ++ "\n\nStderr:\n" ++ (env.run cmd1).stderr ++
             "\n\nNote: PlantUML may have generated the file with a different name. " ++
             "Check the input directory."),
           [Effect.spawn cmd1])) := by
  refine ⟨?_, ?_, ?_, ?_⟩
  · intro env a hok
    by_cases h1 : env.exists0 (resolvePath env.cwd a.input_markdown env.cwd) = true
    · by_cases h2 : asciiLower (extName (resolvePath env.cwd a.input_markdown env.cwd)) = ".md"
      · by_cases h3 : env.exists0 (getDilonCompilerPaths env.projectRoot).scriptPath = true
        · rcases hta : compileTemplateArgs env a with r | extra
          · have hr := compileTemplateArgs_error_isError env a r hta
            rw [show dilonCompile env a = (r, []) from by
              simp [dilonCompile, h1, h2, h3, hta]] at hok
            simp [hr] at hok
          · by_cases h4 : (env.run (pyCommand env.pythonPath
                (getDilonCompilerPaths env.projectRoot).scriptPath
                (resolvePath env.cwd a.input_markdown env.cwd ::
                 compileOutputPath env.cwd a (resolvePath env.cwd a.input_markdown env.cwd) ::
                 extra))).success = true
            · by_cases h5 : env.existsAfter (compileOutputPath env.cwd a
                  (resolvePath env.cwd a.input_markdown env.cwd)) = true
              · refine ⟨_, ?_, h4, h5⟩
                simp [dilonCompile, h1, h2, h3, hta, h4, h5]
              · simp [dilonCompile, h1, h2, h3, hta, h4, h5, isError_createError] at hok
            · simp at h4
              simp [dilonCompile, h1, h2, h3, hta, h4, isError_createError] at hok
        · simp at h3
          simp [dilonCompile, h1, h2, h3, isError_createError] at hok
      · simp [dilonCompile, h1, h2, isError_createError] at hok
    · simp at h1
      simp [dilonCompile, h1, isError_createError] at hok
  · intro env a extra inP outP cmd hin hout hcmd h1 h2 h3 hta h4 h5
    subst hin hout hcmd
    simp [dilonCompile, h1, h2, h3, hta, h4, h5]
  · intro env a hok
    by_cases h1 : env.exists0 (resolvePath env.cwd a.input_file env.cwd) = true
    · by_cases h2 : asciiLower (extName (resolvePath env.cwd a.input_file env.cwd)) = ".puml"
      · by_cases h3 : env.exists0 (pumlJarPath env.plantUmlPath) = true
        · by_cases h4 : (env.run (pumlAliasCmd a (resolvePath env.cwd a.input_file env.cwd))).success = true
          · by_cases h5 : env.existsAfter (pumlOutputPath env.cwd a
                (resolvePath env.cwd a.input_file env.cwd)) = true
            · exact ⟨Or.inl h4, h5⟩
            · simp [dilonPlantUml, h1, h2, h3, h4, h5, isError_createError] at hok
          · simp at h4
            by_cases hnr : errIncludes (env.run (pumlAliasCmd a
                (resolvePath env.cwd a.input_file env.cwd))).error "not recognized" = true
            · by_cases h6 : (env.run (pumlJavaCmd env.plantUmlPath a
                  (resolvePath env.cwd a.input_file env.cwd))).success = true
              · by_cases h5 : env.existsAfter (pumlOutputPath env.cwd a
                    (resolvePath env.cwd a.input_file env.cwd)) = true
                · exact ⟨Or.inr h6, h5⟩
                · simp [dilonPlantUml, h1, h2, h3, h4, hnr, h6, h5, isError_createError] at hok
              · simp at h6
                simp [dilonPlantUml, h1, h2, h3, h4, hnr, h6, isError_createError] at hok
            · simp at hnr
              simp [dilonPlantUml, h1, h2, h3, h4, hnr, isError_createError] at hok
        · simp at h3
          simp [dilonPlantUml, h1, h2, h3, isError_createError] at hok
      · simp [dilonPlantUml, h1, h2, isError_createError] at hok
    · simp at h1
      simp [dilonPlantUml, h1, isError_createError] at hok
  · intro env a inP outP cmd1 hin hout hcmd h1 h2 h3 h4 h5
    subst hin hout hcmd
    simp [dilonPlantUml, h1, h2, h3, h4, h5]

set_option maxRecDepth 10000 in
/-- Witness for C1: concrete compile and render runs that exit
successfully without creating their output file. -/
theorem C1_success_requires_artifact_witness :
    dilonCompile
        { cwd := "/w", projectRoot := "/r", pythonPath := "python",
          exists0 := fun p =>
            p = "/w/doc.md" || p = "/r/tools/Dilon_Document_Compiler/generate_dilon_doc.py",
          run := fun _ => ⟨true, "compiled ok", "", none⟩,
          existsAfter := fun _ => false }
        { input_markdown := "doc.md" } =
      (createErrorResponse "‚ùå Output file not created"
        ("The compiler executed but did not create the output file at: /w/doc.docx" ++
         "\n\nStdout:\ncompiled ok\n\nStderr:\n"),
       [Effect.spawn
         "python \"/r/tools/Dilon_Document_Compiler/generate_dilon_doc.py\" \"/w/doc.md\" \"/w/doc.docx\""]) ∧
    dilonPlantUml
        { cwd := "/w", projectRoot := "/r", plantUmlPath := "/pu",
          exists0 := fun p => p = "/w/d.puml" || p = "/pu/plantuml.jar",
          run := fun _ => ⟨true, "", "", none⟩,
          existsAfter := fun _ => false }
        { input_file := "d.puml" } =
      (createErrorResponse "❌ Output file not created"
        ("PlantUML executed but did not create the output file at: /w/d.png" ++
         "\n\nStdout:\n\n\nStderr:\n" ++
         "\n\nNote: PlantUML may have generated the file with a different name. " ++
         "Check the input directory."),
       [Effect.spawn "powershell -Command \"plantuml -tpng \\\"/w/d.puml\\\"\""]) := by
  constructor
  · have h := C1_success_requires_artifact.2.1
      { cwd := "/w", projectRoot := "/r", pythonPath := "python",
        exists0 := fun p =>
          p = "/w/doc.md" || p = "/r/tools/Dilon_Document_Compiler/generate_dilon_doc.py",
        run := fun _ => ⟨true, "compiled ok", "", none⟩,
        existsAfter := fun _ => false }
      { input_markdown := "doc.md" } [] "/w/doc.md" "/w/doc.docx"
      "python \"/r/tools/Dilon_Document_Compiler/generate_dilon_doc.py\" \"/w/doc.md\" \"/w/doc.docx\""
      (by decide) (by decide) (by decide) (by decide) (by decide) (by decide) rfl
      (by decide) (by decide)
    rw [h]; decide
  · have h := C1_success_requires_artifact.2.2.2
      { cwd := "/w", projectRoot := "/r", plantUmlPath := "/pu",
        exists0 := fun p => p = "/w/d.puml" || p = "/pu/plantuml.jar",
        run := fun _ => ⟨true, "", "", none⟩,
        existsAfter := fun _ => false }
      { input_file := "d.puml" } "/w/d.puml" "/w/d.png"
      "powershell -Command \"plantuml -tpng \\\"/w/d.puml\\\"\""
      (by decide) (by decide) (by decide) (by decide) (by decide) (by decide) (by decide)
      (by decide)
    rw [h]; decide

theorem lookupFS_head (fs : FS) (p c : String) : lookupFS ((p, c) :: fs) p = some c := by
  simp [lookupFS]

theorem generateStub_run (env : StubEnv) (a : StubArgs) (tmpl : String)
    (htmpl : lookupFS env.fs env.templatePath = some tmpl)
    (hfm : hasYamlFrontMatter tmpl = true)
    (hout : existsFS env.fs (resolvePath env.cwd a.output_path env.cwd) = false) :
    generateStub env a =
      (createSuccessResponse "✅ Document stub created"
        (SpreadArg.str (stubSuccessMessage (resolvePath env.cwd a.output_path env.cwd)
          (stubReplacements a))),
       [Effect.fsWrite (resolvePath env.cwd a.output_path env.cwd)
         (stubContent tmpl (stubReplacements a))]) := by
  have hexT : existsFS env.fs env.templatePath = true := by
    simp [existsFS, htmpl]
  simp [generateStub, hexT, htmpl, hout, hfm]

/-- C7: when no file exists at the resolved output path (and the
bundled template is readable with valid front matter), `generate-stub`
succeeds and its trace is exactly one file write; a second call with
the same `output_path` returns the `File already exists` conflict
envelope naming the path, performs no write, and the content written by
the first call is unchanged. -/
theorem C7_generate_stub_refuses_overwrite :
    ∀ (env : StubEnv) (a : StubArgs) (tmpl : String),
      lookupFS env.fs env.templatePath = some tmpl →
      hasYamlFrontMatter tmpl = true →
      existsFS env.fs (resolvePath env.cwd a.output_path env.cwd) = false →
      (generateStub env a).1.isError = false ∧
      (generateStub env a).2 =
        [Effect.fsWrite (resolvePath env.cwd a.output_path env.cwd)
          (stubContent tmpl (stubReplacements a))] ∧
      (generateStub { env with fs := applyEffects env.fs (generateStub env a).2 } a).1 =
        createErrorResponse "❌ File already exists"
          ("Output file already exists: " ++ resolvePath env.cwd a.output_path env.cwd ++
           "\nPlease choose a different path or delete the existing file.") ∧
      (generateStub { env with fs := applyEffects env.fs (generateStub env a).2 } a).2 = [] ∧
      lookupFS
        (applyEffects (applyEffects env.fs (generateStub env a).2)
          (generateStub { env with fs := applyEffects env.fs (generateStub env a).2 } a).2)
        (resolvePath env.cwd a.output_path env.cwd) =
        some (stubContent tmpl (stubReplacements a)) := by
  intro env a tmpl htmpl hfm hout
  have hexT : existsFS env.fs env.templatePath = true := by
    simp [existsFS, htmpl]
  have h1 := generateStub_run env a tmpl htmpl hfm hout
  have hfs1 : applyEffects env.fs (generateStub env a).2 =
      (resolvePath env.cwd a.output_path env.cwd, stubContent tmpl (stubReplacements a)) ::
        env.fs := by
    rw [h1]
    simp [applyEffects]
  have hne : resolvePath env.cwd a.output_path env.cwd ≠ env.templatePath := by
    intro he
    rw [he] at hout
    simp [existsFS, htmpl] at hout
  have hexT2 : existsFS
      ((resolvePath env.cwd a.output_path env.cwd, stubContent tmpl (stubReplacements a)) ::
        env.fs) env.templatePath = true := by
    simp [existsFS, lookupFS, hne, htmpl]
  have hexO2 : existsFS
      ((resolvePath env.cwd a.output_path env.cwd, stubContent tmpl (stubReplacements a)) ::
        env.fs) (resolvePath env.cwd a.output_path env.cwd) = true := by
    simp [existsFS, lookupFS_head]
  have h2 : generateStub { env with fs := applyEffects env.fs (generateStub env a).2 } a =
      (createErrorResponse "❌ File already exists"
        ("Output file already exists: " ++ resolvePath env.cwd a.output_path env.cwd ++
         "\nPlease choose a different path or delete the existing file."), []) := by
    rw [hfs1]
    simp [generateStub, hexT2, hexO2]
  refine ⟨by rw [h1]; rfl, by rw [h1], by rw [h2], by rw [h2], ?_⟩
  have h3 : applyEffects (applyEffects env.fs (generateStub env a).2)
      (generateStub { env with fs := applyEffects env.fs (generateStub env a).2 } a).2 =
      applyEffects env.fs (generateStub env a).2 := by
    rw [h2]
    rfl
  rw [h3, hfs1, lookupFS_head]

/-- Witness for C7: two calls with the same output path over a
concrete filesystem holding a small valid template. -/
theorem C7_generate_stub_refuses_overwrite_witness :
    (generateStub
        { templatePath := "/pkg/docs/TEMPLATE_Document.md", cwd := "/w",
          fs := [("/pkg/docs/TEMPLATE_Document.md",
                  "---\ntitle: \"T\"\nauthor: \"A\"\n---\nbody\n")] }
        { output_path := "/docs/new.md" }).1.isError = false ∧
    (generateStub
        { templatePath := "/pkg/docs/TEMPLATE_Document.md", cwd := "/w",
          fs := [("/pkg/docs/TEMPLATE_Document.md",
                  "---\ntitle: \"T\"\nauthor: \"A\"\n---\nbody\n")] }
        { output_path := "/docs/new.md" }).2 =
      [Effect.fsWrite (resolvePath "/w" "/docs/new.md" "/w")
        (stubContent "---\ntitle: \"T\"\nauthor: \"A\"\n---\nbody\n"
          (stubReplacements { output_path := "/docs/new.md" }))] ∧
    (generateStub
        { templatePath := "/pkg/docs/TEMPLATE_Document.md", cwd := "/w",
          fs := applyEffects
            [("/pkg/docs/TEMPLATE_Document.md",
              "---\ntitle: \"T\"\nauthor: \"A\"\n---\nbody\n")]
            (generateStub
              { templatePath := "/pkg/docs/TEMPLATE_Document.md", cwd := "/w",
                fs := [("/pkg/docs/TEMPLATE_Document.md",
                        "---\ntitle: \"T\"\nauthor: \"A\"\n---\nbody\n")] }
              { output_path := "/docs/new.md" }).2 }
        { output_path := "/docs/new.md" }).1 =
      createErrorResponse "❌ File already exists"
        ("Output file already exists: " ++ resolvePath "/w" "/docs/new.md" "/w" ++
         "\nPlease choose a different path or delete the existing file.") := by
  have h := C7_generate_stub_refuses_overwrite
    { templatePath := "/pkg/docs/TEMPLATE_Document.md", cwd := "/w",
      fs := [("/pkg/docs/TEMPLATE_Document.md",
              "---\ntitle: \"T\"\nauthor: \"A\"\n---\nbody\n")] }
    { output_path := "/docs/new.md" }
    "---\ntitle: \"T\"\nauthor: \"A\"\n---\nbody\n"
    rfl (by decide) (by decide)
  exact ⟨h.1, h.2.1, h.2.2.1⟩

set_option maxRecDepth 100000 in
/-- C8: with only `output_path` set, the substituted document is the
bundled template's body unchanged, prefixed by a front matter carrying
`current_revision "00"`, representative fields `"--"`, and a single
revision entry `"00" / "Initial release" / "ECO-TBD" / "YYYY-MM-DD"`;
the handler writes exactly that document. -/
theorem C8_default_stub_substitution :
    stubContent dilonTemplate (stubReplacements { output_path := "/docs/new.md" }) =
      dilonStubFrontMatter ++ dilonTemplateBody ∧
    (generateStub
        { templatePath := "/pkg/docs/TEMPLATE_Document.md", cwd := "/w",
          fs := [("/pkg/docs/TEMPLATE_Document.md", dilonTemplate)] }
        { output_path := "/docs/new.md" }).2 =
      [Effect.fsWrite "/docs/new.md" (dilonStubFrontMatter ++ dilonTemplateBody)] ∧
    strIncludes dilonStubFrontMatter "current_revision: \"00\"" = true ∧
    strIncludes dilonStubFrontMatter "regulatory_rep: \"--\"" = true ∧
    strIncludes dilonStubFrontMatter "quality_rep: \"--\"" = true ∧
    strIncludes dilonStubFrontMatter "department_head: \"--\"" = true ∧
    strIncludes dilonStubFrontMatter
      ("- number: \"00\"\n    description: \"Initial release\"" ++
       "\n    eco_number: \"ECO-TBD\"\n    eco_date: \"YYYY-MM-DD\"") = true ∧
    Option.map (fun p => (splitFirst ("- number: \"").data p.2).isSome)
      (splitFirst ("- number: \"").data dilonStubFrontMatter.data) = some false := by
  have hc : stubContent dilonTemplate (stubReplacements { output_path := "/docs/new.md" }) =
      dilonStubFrontMatter ++ dilonTemplateBody := strEqB_sound (by decide)
  refine ⟨hc, ?_, by decide, by decide, by decide, by decide, by decide, by decide⟩
  have h := generateStub_run
    { templatePath := "/pkg/docs/TEMPLATE_Document.md", cwd := "/w",
      fs := [("/pkg/docs/TEMPLATE_Document.md", dilonTemplate)] }
    { output_path := "/docs/new.md" } dilonTemplate rfl (by decide) (by decide)
  rw [h]
  rw [show resolvePath "/w" "/docs/new.md" "/w" = "/docs/new.md" from by decide, hc]

/-- C10: every successful `generate-stub` response carries only the
short headline `✅ Document stub created` in its content blocks, while
the detailed success message — passed as `createSuccessResponse`'s
spread argument — surfaces solely as index-keyed single-character
properties of the envelope. -/
theorem C10_success_envelope_spread :
    ∀ (env : StubEnv) (a : StubArgs),
      (generateStub env a).1.isError = false →
      (generateStub env a).1.content =
        [{ type := "text", text := "✅ Document stub created" }] ∧
      (generateStub env a).1.extraProps =
        spreadProps (SpreadArg.str
          (stubSuccessMessage (resolvePath env.cwd a.output_path env.cwd)
            (stubReplacements a))) ∧
      spreadProps (SpreadArg.str
          (stubSuccessMessage (resolvePath env.cwd a.output_path env.cwd)
            (stubReplacements a))) =
        (stubSuccessMessage (resolvePath env.cwd a.output_path env.cwd)
          (stubReplacements a)).data.enum.map
          (fun p => (toString p.1, String.mk [p.2])) := by
  intro env a hok
  by_cases h1 : existsFS env.fs env.templatePath = true
  · by_cases h2 : existsFS env.fs (resolvePath env.cwd a.output_path env.cwd) = true
    · simp [generateStub, h1, h2, isError_createError] at hok
    · simp at h2
      by_cases h3 : hasYamlFrontMatter ((lookupFS env.fs env.templatePath).getD "") = true
      · refine ⟨?_, ?_, rfl⟩ <;>
          simp [generateStub, h1, h2, h3, createSuccessResponse]
      · simp at h3
        simp [generateStub, h1, h2, h3, isError_createError] at hok
  · simp at h1
    simp [generateStub, h1, isError_createError] at hok

/-- Witness for C10 on a concrete successful call. -/
theorem C10_success_envelope_spread_witness :
    (generateStub
        { templatePath := "/pkg/docs/TEMPLATE_Document.md", cwd := "/w",
          fs := [("/pkg/docs/TEMPLATE_Document.md",
                  "---\ntitle: \"T\"\nauthor: \"A\"\n---\nbody\n")] }
        { output_path := "/out.md" }).1.content =
      [{ type := "text", text := "✅ Document stub created" }] ∧
    (generateStub
        { templatePath := "/pkg/docs/TEMPLATE_Document.md", cwd := "/w",
          fs := [("/pkg/docs/TEMPLATE_Document.md",
                  "---\ntitle: \"T\"\nauthor: \"A\"\n---\nbody\n")] }
        { output_path := "/out.md" }).1.extraProps =
      spreadProps (SpreadArg.str
        (stubSuccessMessage (resolvePath "/w" "/out.md" "/w")
          (stubReplacements { output_path := "/out.md" }))) := by
  have h := C10_success_envelope_spread
    { templatePath := "/pkg/docs/TEMPLATE_Document.md", cwd := "/w",
      fs := [("/pkg/docs/TEMPLATE_Document.md",
              "---\ntitle: \"T\"\nauthor: \"A\"\n---\nbody\n")] }
    { output_path := "/out.md" } (by decide)
  exact ⟨h.1, h.2.1⟩
